import Mathlib

/-!
Shallow embedding of the statistical engine of the AI-Powered Health
Outcomes Navigator (App.tsx).  The engine consumes a 2x2 contingency
table of non-negative integer counts `a b c d`, a study design and a
study goal, and produces a record of optional metrics.  JavaScript
numbers are modelled as exact rationals; the transcendental library
primitives `Math.sqrt`, `Math.exp`, `Math.log` are abstracted into a
parameter structure `MathPrims`, so every theorem quantified over all
`MathPrims` holds independently of how those primitives are
approximated.  Control flow and arithmetic are transliterated from
`handleCalculate`, `normalCDF` and `calculatePValueFromZ` in App.tsx.
-/

/-- The transcendental primitives of the JavaScript `Math` library used by
the engine (`Math.sqrt`, `Math.exp`, `Math.log`), abstracted as rational
functions. -/
structure MathPrims where
  sqrt : ℚ → ℚ
  exp : ℚ → ℚ
  log : ℚ → ℚ

/-- The Abramowitz and Stegun rational approximation to `erf(|z|)` as coded
in `normalCDF` in App.tsx: `t = 1/(1 + p*|z|)` and
`erf = 1 - (((((a5*t + a4)*t + a3)*t + a2)*t + a1)*t) * exp(-z*z)`. -/
def erfPoly (M : MathPrims) (z : ℚ) : ℚ :=
  let p : ℚ := 0.3275911
  let a1 : ℚ := 0.254829592
  let a2 : ℚ := -0.284496736
  let a3 : ℚ := 1.421413741
  let a4 : ℚ := -1.453152027
  let a5 : ℚ := 1.061405429
  let t : ℚ := 1 / (1 + p * |z|)
  1 - (((((a5 * t + a4) * t) + a3) * t + a2) * t + a1) * t * M.exp (-(z * z))

/-- `normalCDF` from App.tsx: the standard normal cumulative distribution
via `CDF(x) = 0.5 * (1 + sign(z) * erf(|z|))` with `z = x / sqrt 2` and
`sign(z) = 1` when `z >= 0`, `-1` otherwise. -/
def normalCDF (M : MathPrims) (x : ℚ) : ℚ :=
  let z : ℚ := x / M.sqrt 2
  let sign : ℚ := if 0 ≤ z then 1 else -1
  0.5 * (1 + sign * erfPoly M z)

/-- Left pad of the four fractional digits produced by `toFixed(4)`. -/
def pad4 (m : ℕ) : String :=
  if m < 10 then "000" ++ toString m
  else if m < 100 then "00" ++ toString m
  else if m < 1000 then "0" ++ toString m
  else toString m

/-- `toFixed(4)` on a non-negative rational: round half away from zero to
four decimal places and render the digits. -/
def toFixed4Nonneg (q : ℚ) : String :=
  let n : ℕ := (⌊q * 10000 + 0.5⌋).toNat
  toString (n / 10000) ++ "." ++ pad4 (n % 10000)

/-- Model of JavaScript `Number.prototype.toFixed(4)`: a leading minus sign
for negative input, then four rounded decimal places. -/
def toFixed4 (q : ℚ) : String :=
  if q < 0 then "-" ++ toFixed4Nonneg (-q) else toFixed4Nonneg q

/-- `calculatePValueFromZ` from App.tsx: two-tailed p-value from a Z
statistic, `p = 2*(1 - normalCDF(|z|))`, reported as the literal string
`<0.0001` when below 0.0001 and otherwise formatted to 4 decimals. -/
def calculatePValueFromZ (M : MathPrims) (z : ℚ) : String :=
  let absZ : ℚ := |z|
  let p : ℚ := 2 * (1 - normalCDF M absZ)
  if p < 0.0001 then "<0.0001" else toFixed4 p

/-- Study designs supported by the engine. -/
inductive StudyDesign where
  | rct
  | nonRct
  | cohortProspective
  | cohortRetrospective
  | caseControl
deriving DecidableEq

/-- Study goals supported by the engine. -/
inductive StudyGoal where
  | desirable
  | undesirable
deriving DecidableEq

/-- A metric holding a point estimate only. -/
structure ValueResult where
  value : ℚ
deriving DecidableEq

/-- A metric holding a point estimate and 95% confidence bounds. -/
structure CIResult where
  value : ℚ
  lower : ℚ
  upper : ℚ
deriving DecidableEq

/-- A metric holding a point estimate, 95% confidence bounds, a formatted
two-tailed p-value and the Z statistic. -/
structure TestResult where
  value : ℚ
  lower : ℚ
  upper : ℚ
  pValue : String
  zStat : ℚ
deriving DecidableEq

/-- Classification tag of the NNT/NNH metric. -/
inductive NntType where
  | Benefit
  | Harm
deriving DecidableEq

/-- The NNT/NNH metric. -/
structure NntResult where
  value : ℚ
  type : NntType
  lower : ℚ
  upper : ℚ
deriving DecidableEq

/-- One labelled impact value. -/
structure ImpactItem where
  label : String
  value : ℚ
deriving DecidableEq

/-- The pair of absolute and relative impact measures. -/
structure ImpactMeasures where
  absolute : ImpactItem
  relative : ImpactItem
deriving DecidableEq

/-- The `Results` aggregate of the engine: one optional field per metric,
`none` denoting the JavaScript `null`. -/
structure Results where
  absoluteRiskExposed : Option ValueResult
  absoluteRiskControl : Option ValueResult
  riskDifference : Option CIResult
  relativeRisk : Option TestResult
  oddsRatio : Option TestResult
  impactMeasures : Option ImpactMeasures
  nnt : Option NntResult
  power : Option ValueResult
  type1Error : Option ValueResult
  type2Error : Option ValueResult
deriving DecidableEq

/-- Continuity correction from `handleCalculate`: a zero cell is replaced
by 0.5, non-zero cells pass through. -/
def correctCell (n : ℕ) : ℚ := if n = 0 then 0.5 else n

/-- `exposedTotal = a + b`. -/
def exposedTotal (a b : ℕ) : ℚ := (a : ℚ) + (b : ℚ)

/-- `controlTotal = c + d`. -/
def controlTotal (c d : ℕ) : ℚ := (c : ℚ) + (d : ℚ)

/-- Corrected exposed-group total. -/
def exposedTotalC (a b : ℕ) : ℚ := correctCell a + correctCell b

/-- Corrected control-group total. -/
def controlTotalC (c d : ℕ) : ℚ := correctCell c + correctCell d

/-- `riskExposed = a / exposedTotal`, from the raw counts. -/
def riskExposed (a b : ℕ) : ℚ := (a : ℚ) / exposedTotal a b

/-- `riskControl = c / controlTotal`, from the raw counts. -/
def riskControl (c d : ℕ) : ℚ := (c : ℚ) / controlTotal c d

/-- Corrected exposed risk, used only inside standard errors. -/
def riskExposedC (a b : ℕ) : ℚ := correctCell a / exposedTotalC a b

/-- Corrected control risk, used only inside standard errors. -/
def riskControlC (c d : ℕ) : ℚ := correctCell c / controlTotalC c d

/-- The risk difference `rd = riskExposed - riskControl`. -/
def riskDiff (a b c d : ℕ) : ℚ := riskExposed a b - riskControl c d

/-- Standard error of the risk difference, computed from the corrected
risks and corrected totals. -/
def seRd (M : MathPrims) (a b c d : ℕ) : ℚ :=
  M.sqrt (riskExposedC a b * (1 - riskExposedC a b) / exposedTotalC a b
    + riskControlC c d * (1 - riskControlC c d) / controlTotalC c d)

/-- The risk-difference entry: `rd` with the 95% interval `rd ± 1.96*se`. -/
def riskDifferenceResult (M : MathPrims) (a b c d : ℕ) : CIResult :=
  ⟨riskDiff a b c d, riskDiff a b c d - 1.96 * seRd M a b c d,
    riskDiff a b c d + 1.96 * seRd M a b c d⟩

/-- The impact-measures entry: computed only when `riskControl > 0` and
`rd ≠ 0`; the labels follow the goal and the sign of `rd`. -/
def impactMeasuresOpt (a b c d : ℕ) (goal : StudyGoal) : Option ImpactMeasures :=
  let rd := riskDiff a b c d
  if 0 < riskControl c d ∧ rd ≠ 0 then
    let absoluteValue := |rd|
    let relativeValue := absoluteValue / riskControl c d
    let labels : String × String :=
      if goal = StudyGoal.undesirable then
        if 0 < rd then ("Absolute Risk Increase (ARI)", "Relative Risk Increase (RRI)")
        else ("Absolute Risk Reduction (ARR)", "Relative Risk Reduction (RRR)")
      else
        if 0 < rd then ("Absolute Benefit Increase (ABI)", "Relative Benefit Increase (RBI)")
        else ("Absolute Benefit Reduction (ABR)", "Relative Benefit Reduction (RBR)")
    some ⟨⟨labels.1, absoluteValue⟩, ⟨labels.2, relativeValue⟩⟩
  else none

/-- The relative-risk entry: computed when `riskControl > 0` and
`riskExposed ≥ 0`, with `rr = 0` when `riskExposed = 0`, log-scale 95%
interval and p-value from the Z statistic. -/
def relativeRiskOpt (M : MathPrims) (a b c d : ℕ) : Option TestResult :=
  if 0 < riskControl c d ∧ 0 ≤ riskExposed a b then
    let rr := if riskExposed a b = 0 then 0 else riskExposed a b / riskControl c d
    let lnRr := M.log rr
    let seLnRr := M.sqrt ((1 - riskExposedC a b) / correctCell a
      + (1 - riskControlC c d) / correctCell c)
    let zStat := lnRr / seLnRr
    some ⟨rr, M.exp (lnRr - 1.96 * seLnRr), M.exp (lnRr + 1.96 * seLnRr),
      calculatePValueFromZ M zStat, zStat⟩
  else none

/-- The NNT/NNH entry: computed only when `rd ≠ 0`; `value = 1/|rd|`,
`Benefit` iff `(goal=undesirable ∧ rd<0) ∨ (goal=desirable ∧ rd>0)`, and
the bounds are reciprocals of the risk-difference bounds in the same
order. -/
def nntOpt (M : MathPrims) (a b c d : ℕ) (goal : StudyGoal) : Option NntResult :=
  let rd := riskDiff a b c d
  if rd ≠ 0 then
    let nntType : NntType :=
      if (goal = StudyGoal.undesirable ∧ rd < 0) ∨ (goal = StudyGoal.desirable ∧ 0 < rd)
      then NntType.Benefit else NntType.Harm
    some ⟨1 / |rd|, nntType, 1 / (riskDifferenceResult M a b c d).upper,
      1 / (riskDifferenceResult M a b c d).lower⟩
  else none

/-- The pooled proportion `p_pooled = (a+c)/(exposedTotal+controlTotal)`
used by the post-hoc power computation. -/
def pPooled (a b c d : ℕ) : ℚ :=
  ((a : ℚ) + (c : ℚ)) / (exposedTotal a b + controlTotal c d)

/-- The post-hoc power triple `(power, type1Error, type2Error)` of
`handleCalculate`: the degenerate equal-risks branch reports
`(alpha, alpha, 1-alpha)`; otherwise power is computed from the pooled
proportion when `0 < p_pooled < 1` and the alternative variance is
positive, and the failing branches report `(null, alpha, null)`. -/
def powerFields (M : MathPrims) (a b c d : ℕ) :
    Option ValueResult × Option ValueResult × Option ValueResult :=
  let alpha : ℚ := 0.05
  if riskExposed a b ≠ riskControl c d then
    if 0 < pPooled a b c d ∧ pPooled a b c d < 1 then
      let seNull := M.sqrt (pPooled a b c d * (1 - pPooled a b c d)
        * (1 / exposedTotal a b + 1 / controlTotal c d))
      let criticalDiff := 1.96 * seNull
      let seAltVariance := riskExposed a b * (1 - riskExposed a b) / exposedTotal a b
        + riskControl c d * (1 - riskControl c d) / controlTotal c d
      if 0 < seAltVariance then
        let seAlt := M.sqrt seAltVariance
        let observedDiff := riskExposed a b - riskControl c d
        let zForUpperTail := (criticalDiff - observedDiff) / seAlt
        let zForLowerTail := (-criticalDiff - observedDiff) / seAlt
        let power := (1 - normalCDF M zForUpperTail) + normalCDF M zForLowerTail
        (some ⟨power⟩, some ⟨alpha⟩, some ⟨1 - power⟩)
      else (none, some ⟨alpha⟩, none)
    else (none, some ⟨alpha⟩, none)
  else (some ⟨alpha⟩, some ⟨alpha⟩, some ⟨1 - alpha⟩)

/-- The odds-ratio entry, computed from the corrected cells:
`or = (a_c*d_c)/(b_c*c_c)` with a log-scale 95% interval and p-value. -/
def oddsRatioResult (M : MathPrims) (a b c d : ℕ) : TestResult :=
  let orVal := (correctCell a * correctCell d) / (correctCell b * correctCell c)
  let lnOr := M.log orVal
  let seLnOr := M.sqrt (1 / correctCell a + 1 / correctCell b
    + 1 / correctCell c + 1 / correctCell d)
  let zStat := lnOr / seLnOr
  ⟨orVal, M.exp (lnOr - 1.96 * seLnOr), M.exp (lnOr + 1.96 * seLnOr),
    calculatePValueFromZ M zStat, zStat⟩

/-- The all-null `Results` value the engine starts from. -/
def emptyResults : Results :=
  ⟨none, none, none, none, none, none, none, none, none, none⟩

/-- The incidence-based block of `handleCalculate`: every metric that is
only valid when incidence can be calculated, with the odds ratio still
unset. -/
def incidenceResults (M : MathPrims) (a b c d : ℕ) (goal : StudyGoal) : Results where
  absoluteRiskExposed := some ⟨riskExposed a b⟩
  absoluteRiskControl := some ⟨riskControl c d⟩
  riskDifference := some (riskDifferenceResult M a b c d)
  relativeRisk := relativeRiskOpt M a b c d
  oddsRatio := none
  impactMeasures := impactMeasuresOpt a b c d goal
  nnt := nntOpt M a b c d goal
  power := (powerFields M a b c d).1
  type1Error := (powerFields M a b c d).2.1
  type2Error := (powerFields M a b c d).2.2

/-- The state of the results after the incidence section of
`handleCalculate`: the incidence block runs only when the design is not
case-control and both group totals are positive. -/
def baseResults (M : MathPrims) (a b c d : ℕ) (design : StudyDesign)
    (goal : StudyGoal) : Results :=
  if design ≠ StudyDesign.caseControl then
    if 0 < exposedTotal a b ∧ 0 < controlTotal c d then incidenceResults M a b c d goal
    else emptyResults
  else emptyResults

/-- `handleCalculate` as a pure function: the incidence section followed
by the odds-ratio section, whose guard `a ≥ 0 ∧ b > 0 ∧ c > 0 ∧ d ≥ 0`
tests the raw counts. -/
def computeMetrics (M : MathPrims) (a b c d : ℕ) (design : StudyDesign)
    (goal : StudyGoal) : Results :=
  if 0 ≤ a ∧ 0 < b ∧ 0 < c ∧ 0 ≤ d then
    { baseResults M a b c d design goal with
      oddsRatio := some (oddsRatioResult M a b c d) }
  else baseResults M a b c d design goal

/-- A concrete instantiation of the transcendental primitives, used to
witness theorems on concrete inputs. -/
def M0 : MathPrims := ⟨fun _ => 1, fun _ => 1, fun _ => 0⟩

/-- Every continuity-corrected cell is positive. -/
theorem correctCell_pos (n : ℕ) : 0 < correctCell n := by
  unfold correctCell
  split
  · norm_num
  · have hn : n ≠ 0 := by assumption
    exact_mod_cast Nat.pos_of_ne_zero hn

/-- The incidence section never sets the odds ratio. -/
theorem baseResults_oddsRatio (M : MathPrims) (a b c d : ℕ) (design : StudyDesign)
    (goal : StudyGoal) : (baseResults M a b c d design goal).oddsRatio = none := by
  unfold baseResults
  split
  · split
    · rfl
    · rfl
  · rfl

/-- When the design is not case-control and both totals are positive, the
incidence section fills in the incidence block. -/
theorem baseResults_incidence (M : MathPrims) (a b c d : ℕ) (design : StudyDesign)
    (goal : StudyGoal) (hd : design ≠ StudyDesign.caseControl)
    (he : 0 < exposedTotal a b) (hc : 0 < controlTotal c d) :
    baseResults M a b c d design goal = incidenceResults M a b c d goal := by
  unfold baseResults
  rw [if_pos hd, if_pos ⟨he, hc⟩]

/-- The odds-ratio section of the engine only ever touches the odds-ratio
field: the final odds ratio is set exactly when `b > 0` and `c > 0`. -/
theorem computeMetrics_oddsRatio (M : MathPrims) (a b c d : ℕ) (design : StudyDesign)
    (goal : StudyGoal) :
    (computeMetrics M a b c d design goal).oddsRatio =
      if 0 < b ∧ 0 < c then some (oddsRatioResult M a b c d) else none := by
  unfold computeMetrics
  by_cases h : 0 < b ∧ 0 < c
  · rw [if_pos ⟨Nat.zero_le a, h.1, h.2, Nat.zero_le d⟩, if_pos h]
  · rw [if_neg (fun hh => h ⟨hh.2.1, hh.2.2.1⟩), if_neg h, baseResults_oddsRatio]

/-- Every field other than the odds ratio passes through the odds-ratio
section unchanged. -/
theorem computeMetrics_eq_base (M : MathPrims) (a b c d : ℕ) (design : StudyDesign)
    (goal : StudyGoal) :
    (computeMetrics M a b c d design goal).absoluteRiskExposed
        = (baseResults M a b c d design goal).absoluteRiskExposed ∧
    (computeMetrics M a b c d design goal).absoluteRiskControl
        = (baseResults M a b c d design goal).absoluteRiskControl ∧
    (computeMetrics M a b c d design goal).riskDifference
        = (baseResults M a b c d design goal).riskDifference ∧
    (computeMetrics M a b c d design goal).relativeRisk
        = (baseResults M a b c d design goal).relativeRisk ∧
    (computeMetrics M a b c d design goal).impactMeasures
        = (baseResults M a b c d design goal).impactMeasures ∧
    (computeMetrics M a b c d design goal).nnt
        = (baseResults M a b c d design goal).nnt ∧
    (computeMetrics M a b c d design goal).power
        = (baseResults M a b c d design goal).power ∧
    (computeMetrics M a b c d design goal).type1Error
        = (baseResults M a b c d design goal).type1Error ∧
    (computeMetrics M a b c d design goal).type2Error
        = (baseResults M a b c d design goal).type2Error := by
  unfold computeMetrics
  split
  · exact ⟨rfl, rfl, rfl, rfl, rfl, rfl, rfl, rfl, rfl⟩
  · exact ⟨rfl, rfl, rfl, rfl, rfl, rfl, rfl, rfl, rfl⟩

/-- C1: for every valid input table and every study goal, under the
case-control design the fields absoluteRiskExposed, absoluteRiskControl,
riskDifference, relativeRisk, impactMeasures, nnt, power, type1Error and
type2Error of the result are all null; only the odds ratio may be
non-null. -/
theorem claim1_caseControl_all_incidence_null (M : MathPrims) (a b c d : ℕ)
    (goal : StudyGoal) :
    (computeMetrics M a b c d StudyDesign.caseControl goal).absoluteRiskExposed = none ∧
    (computeMetrics M a b c d StudyDesign.caseControl goal).absoluteRiskControl = none ∧
    (computeMetrics M a b c d StudyDesign.caseControl goal).riskDifference = none ∧
    (computeMetrics M a b c d StudyDesign.caseControl goal).relativeRisk = none ∧
    (computeMetrics M a b c d StudyDesign.caseControl goal).impactMeasures = none ∧
    (computeMetrics M a b c d StudyDesign.caseControl goal).nnt = none ∧
    (computeMetrics M a b c d StudyDesign.caseControl goal).power = none ∧
    (computeMetrics M a b c d StudyDesign.caseControl goal).type1Error = none ∧
    (computeMetrics M a b c d StudyDesign.caseControl goal).type2Error = none := by
  have hb : baseResults M a b c d StudyDesign.caseControl goal = emptyResults := by
    unfold baseResults
    rw [if_neg (by simp)]
  unfold computeMetrics
  rw [hb]
  split
  · exact ⟨rfl, rfl, rfl, rfl, rfl, rfl, rfl, rfl, rfl⟩
  · exact ⟨rfl, rfl, rfl, rfl, rfl, rfl, rfl, rfl, rfl⟩

/-- C5: for a fixed table and goal, any two study designs produce exactly
the same odds-ratio field: the odds-ratio computation does not read the
design input. -/
theorem claim5_oddsRatio_design_independent (M : MathPrims) (a b c d : ℕ)
    (goal : StudyGoal) (design1 design2 : StudyDesign) (hb : 0 < b) (hc : 0 < c) :
    (computeMetrics M a b c d design1 goal).oddsRatio
      = (computeMetrics M a b c d design2 goal).oddsRatio := by
  rw [computeMetrics_oddsRatio, computeMetrics_oddsRatio]

/-- Witness for C5 at the Scenario C table, case-control versus rct. -/
theorem claim5_witness :
    0 < 20 ∧ 0 < 10 ∧
    (computeMetrics M0 10 20 10 20 StudyDesign.caseControl StudyGoal.desirable).oddsRatio
      = (computeMetrics M0 10 20 10 20 StudyDesign.rct StudyGoal.desirable).oddsRatio :=
  ⟨by decide, by decide,
    claim5_oddsRatio_design_independent M0 10 20 10 20 StudyGoal.desirable
      StudyDesign.caseControl StudyDesign.rct (by decide) (by decide)⟩

/-- C6: for every table, design and goal, the odds ratio is null exactly
when `b = 0` or `c = 0` (the eligibility test uses the raw counts); when
`b > 0` and `c > 0` it is non-null with value computed from the corrected
cells, hence finite and positive even when `a = 0`. -/
theorem claim6_oddsRatio_null_iff_zero_margin (M : MathPrims) (a b c d : ℕ)
    (design : StudyDesign) (goal : StudyGoal) :
    ((computeMetrics M a b c d design goal).oddsRatio = none ↔ b = 0 ∨ c = 0) ∧
    (0 < b → 0 < c → ∃ orr : TestResult,
      (computeMetrics M a b c d design goal).oddsRatio = some orr ∧
      orr.value = correctCell a * correctCell d / (correctCell b * correctCell c) ∧
      0 < orr.value) := by
  rw [computeMetrics_oddsRatio]
  constructor
  · by_cases h : 0 < b ∧ 0 < c
    · rw [if_pos h]
      constructor
      · intro hsome
        exact absurd hsome (Option.some_ne_none _)
      · intro hbc
        exfalso
        omega
    · rw [if_neg h]
      constructor
      · intro _
        omega
      · intro _
        rfl
  · intro hb hc
    rw [if_pos ⟨hb, hc⟩]
    refine ⟨oddsRatioResult M a b c d, rfl, rfl, ?_⟩
    exact div_pos (mul_pos (correctCell_pos a) (correctCell_pos d))
      (mul_pos (correctCell_pos b) (correctCell_pos c))

/-- Witness for C6 at the Scenario B table, where `a = 0`. -/
theorem claim6_witness :
    0 < 100 ∧ 0 < 10 ∧ (∃ orr : TestResult,
      (computeMetrics M0 0 100 10 90 StudyDesign.rct StudyGoal.undesirable).oddsRatio
        = some orr ∧
      orr.value = correctCell 0 * correctCell 90 / (correctCell 100 * correctCell 10) ∧
      0 < orr.value) :=
  ⟨by decide, by decide,
    (claim6_oddsRatio_null_iff_zero_margin M0 0 100 10 90 StudyDesign.rct
      StudyGoal.undesirable).2 (by decide) (by decide)⟩

/-- C7: when the design is not case-control and both group totals are
positive, the point estimates of risk use the raw counts with no
continuity correction: `absoluteRiskExposed = a/(a+b)` and
`absoluteRiskControl = c/(c+d)` exactly. -/
theorem claim7_point_estimates_uncorrected (M : MathPrims) (a b c d : ℕ)
    (design : StudyDesign) (goal : StudyGoal) (hd : design ≠ StudyDesign.caseControl)
    (he : 0 < exposedTotal a b) (hc : 0 < controlTotal c d) :
    (computeMetrics M a b c d design goal).absoluteRiskExposed
        = some ⟨(a : ℚ) / ((a : ℚ) + (b : ℚ))⟩ ∧
    (computeMetrics M a b c d design goal).absoluteRiskControl
        = some ⟨(c : ℚ) / ((c : ℚ) + (d : ℚ))⟩ := by
  obtain ⟨h1, h2, -⟩ := computeMetrics_eq_base M a b c d design goal
  rw [h1, h2, baseResults_incidence M a b c d design goal hd he hc]
  exact ⟨rfl, rfl⟩

/-- Witness for C7 at the Scenario A table. -/
theorem claim7_witness :
    StudyDesign.cohortProspective ≠ StudyDesign.caseControl ∧
    0 < exposedTotal 20 80 ∧ 0 < controlTotal 5 95 ∧
    ((computeMetrics M0 20 80 5 95 StudyDesign.cohortProspective
        StudyGoal.undesirable).absoluteRiskExposed
        = some ⟨((20 : ℕ) : ℚ) / (((20 : ℕ) : ℚ) + ((80 : ℕ) : ℚ))⟩ ∧
     (computeMetrics M0 20 80 5 95 StudyDesign.cohortProspective
        StudyGoal.undesirable).absoluteRiskControl
        = some ⟨((5 : ℕ) : ℚ) / (((5 : ℕ) : ℚ) + ((95 : ℕ) : ℚ))⟩) :=
  ⟨by decide, by norm_num [exposedTotal], by norm_num [controlTotal],
    claim7_point_estimates_uncorrected M0 20 80 5 95 StudyDesign.cohortProspective
      StudyGoal.undesirable (by decide) (by norm_num [exposedTotal])
      (by norm_num [controlTotal])⟩

/-- C10: when the design is not case-control, both group totals are
positive and the two raw risks differ, the pooled proportion necessarily
lies strictly between 0 and 1, so the power branch that reports null
because `p_pooled` is 0 or 1 is unreachable. -/
theorem claim10_pPooled_nondegenerate (a b c d : ℕ) (design : StudyDesign)
    (hd : design ≠ StudyDesign.caseControl) (he : 0 < exposedTotal a b)
    (hc : 0 < controlTotal c d) (hr : riskExposed a b ≠ riskControl c d) :
    0 < pPooled a b c d ∧ pPooled a b c d < 1 := by
  have hden : 0 < exposedTotal a b + controlTotal c d := add_pos he hc
  have hapos : 0 < (a : ℚ) + (c : ℚ) := by
    rcases Nat.eq_zero_or_pos (a + c) with h0 | hpos
    · exfalso
      have ha : a = 0 := by omega
      have hcc : c = 0 := by omega
      apply hr
      rw [riskExposed, riskControl, ha, hcc]
      simp
    · have hq : (0 : ℚ) < ((a + c : ℕ) : ℚ) := by exact_mod_cast hpos
      push_cast at hq
      linarith
  refine ⟨by rw [pPooled]; exact div_pos hapos hden, ?_⟩
  rw [pPooled, div_lt_one hden]
  have hbd : 0 < (b : ℚ) + (d : ℚ) := by
    rcases Nat.eq_zero_or_pos (b + d) with h0 | hpos
    · exfalso
      have hb : b = 0 := by omega
      have hdd : d = 0 := by omega
      have hA : 0 < (a : ℚ) := by
        rw [exposedTotal, hb] at he
        push_cast at he
        linarith
      have hC : 0 < (c : ℚ) := by
        rw [controlTotal, hdd] at hc
        push_cast at hc
        linarith
      apply hr
      rw [riskExposed, riskControl, exposedTotal, controlTotal, hb, hdd]
      push_cast
      rw [add_zero, add_zero, div_self hA.ne', div_self hC.ne']
    · have hq : (0 : ℚ) < ((b + d : ℕ) : ℚ) := by exact_mod_cast hpos
      push_cast at hq
      linarith
  rw [exposedTotal, controlTotal]
  linarith

/-- Witness for C10 at the Scenario A table. -/
theorem claim10_witness :
    StudyDesign.rct ≠ StudyDesign.caseControl ∧
    0 < exposedTotal 20 80 ∧ 0 < controlTotal 5 95 ∧
    riskExposed 20 80 ≠ riskControl 5 95 ∧
    (0 < pPooled 20 80 5 95 ∧ pPooled 20 80 5 95 < 1) :=
  ⟨by decide, by norm_num [exposedTotal], by norm_num [controlTotal],
    by norm_num [riskExposed, riskControl, exposedTotal, controlTotal],
    claim10_pPooled_nondegenerate 20 80 5 95 StudyDesign.rct (by decide)
      (by norm_num [exposedTotal]) (by norm_num [controlTotal])
      (by norm_num [riskExposed, riskControl, exposedTotal, controlTotal])⟩

/-- C2: when the design is not case-control and both group totals are
positive, the NNT entry is null exactly on zero risk difference, and on a
nonzero risk difference `rd` it holds `value = 1/|rd|`, type `Benefit`
exactly when `(goal=undesirable ∧ rd<0) ∨ (goal=desirable ∧ rd>0)` and
otherwise `Harm`, and confidence bounds that are reciprocals of the
risk-difference bounds in the same order. -/
theorem claim2_nnt_value_type_bounds (M : MathPrims) (a b c d : ℕ)
    (design : StudyDesign) (goal : StudyGoal) (hd : design ≠ StudyDesign.caseControl)
    (he : 0 < exposedTotal a b) (hc : 0 < controlTotal c d) :
    (riskDiff a b c d = 0 → (computeMetrics M a b c d design goal).nnt = none) ∧
    (riskDiff a b c d ≠ 0 → ∃ (n : NntResult) (rdr : CIResult),
      (computeMetrics M a b c d design goal).nnt = some n ∧
      (computeMetrics M a b c d design goal).riskDifference = some rdr ∧
      n.value = 1 / |riskDiff a b c d| ∧
      (n.type = NntType.Benefit ↔
        (goal = StudyGoal.undesirable ∧ riskDiff a b c d < 0) ∨
        (goal = StudyGoal.desirable ∧ 0 < riskDiff a b c d)) ∧
      n.lower = 1 / rdr.upper ∧ n.upper = 1 / rdr.lower) := by
  obtain ⟨-, -, h3, -, -, h6, -, -, -⟩ := computeMetrics_eq_base M a b c d design goal
  rw [baseResults_incidence M a b c d design goal hd he hc] at h3 h6
  constructor
  · intro h0
    rw [h6]
    show nntOpt M a b c d goal = none
    simp only [nntOpt]
    rw [if_neg (not_not_intro h0)]
  · intro hne
    have hnnt : (computeMetrics M a b c d design goal).nnt
        = some ⟨1 / |riskDiff a b c d|,
            (if (goal = StudyGoal.undesirable ∧ riskDiff a b c d < 0)
                ∨ (goal = StudyGoal.desirable ∧ 0 < riskDiff a b c d)
             then NntType.Benefit else NntType.Harm),
            1 / (riskDifferenceResult M a b c d).upper,
            1 / (riskDifferenceResult M a b c d).lower⟩ := by
      rw [h6]
      show nntOpt M a b c d goal = _
      simp only [nntOpt]
      rw [if_pos hne]
    have hrd : (computeMetrics M a b c d design goal).riskDifference
        = some (riskDifferenceResult M a b c d) := by
      rw [h3]
      rfl
    refine ⟨_, _, hnnt, hrd, rfl, ?_, rfl, rfl⟩
    by_cases hp : (goal = StudyGoal.undesirable ∧ riskDiff a b c d < 0)
        ∨ (goal = StudyGoal.desirable ∧ 0 < riskDiff a b c d)
    · rw [if_pos hp]
      exact iff_of_true rfl hp
    · rw [if_neg hp]
      exact iff_of_false (fun hcon => NntType.noConfusion hcon) hp

/-- Witness for C2 at the Scenario A table, where `rd = 0.15`. -/
theorem claim2_witness :
    StudyDesign.rct ≠ StudyDesign.caseControl ∧ 0 < exposedTotal 20 80 ∧
    0 < controlTotal 5 95 ∧ riskDiff 20 80 5 95 ≠ 0 ∧
    (∃ (n : NntResult) (rdr : CIResult),
      (computeMetrics M0 20 80 5 95 StudyDesign.rct StudyGoal.undesirable).nnt = some n ∧
      (computeMetrics M0 20 80 5 95 StudyDesign.rct StudyGoal.undesirable).riskDifference
        = some rdr ∧
      n.value = 1 / |riskDiff 20 80 5 95| ∧
      (n.type = NntType.Benefit ↔
        (StudyGoal.undesirable = StudyGoal.undesirable ∧ riskDiff 20 80 5 95 < 0) ∨
        (StudyGoal.undesirable = StudyGoal.desirable ∧ 0 < riskDiff 20 80 5 95)) ∧
      n.lower = 1 / rdr.upper ∧ n.upper = 1 / rdr.lower) :=
  ⟨by decide, by norm_num [exposedTotal], by norm_num [controlTotal],
    by norm_num [riskDiff, riskExposed, riskControl, exposedTotal, controlTotal],
    (claim2_nnt_value_type_bounds M0 20 80 5 95 StudyDesign.rct StudyGoal.undesirable
      (by decide) (by norm_num [exposedTotal]) (by norm_num [controlTotal])).2
      (by norm_num [riskDiff, riskExposed, riskControl, exposedTotal, controlTotal])⟩

/-- C3: when the design is not case-control and both group totals are
positive, the impact-measures entry is non-null exactly when
`riskControl > 0` and `rd ≠ 0`, and then the absolute value is `|rd|`,
the relative value is `|rd|/riskControl`, and the labels follow the 2x2
policy on the goal and the sign of `rd`. -/
theorem claim3_impact_measures (M : MathPrims) (a b c d : ℕ)
    (design : StudyDesign) (goal : StudyGoal) (hd : design ≠ StudyDesign.caseControl)
    (he : 0 < exposedTotal a b) (hc : 0 < controlTotal c d) :
    ((computeMetrics M a b c d design goal).impactMeasures ≠ none ↔
      0 < riskControl c d ∧ riskDiff a b c d ≠ 0) ∧
    (∀ im : ImpactMeasures,
      (computeMetrics M a b c d design goal).impactMeasures = some im →
      im.absolute.value = |riskDiff a b c d| ∧
      im.relative.value = |riskDiff a b c d| / riskControl c d ∧
      (goal = StudyGoal.undesirable → 0 < riskDiff a b c d →
        im.absolute.label = "Absolute Risk Increase (ARI)" ∧
        im.relative.label = "Relative Risk Increase (RRI)") ∧
      (goal = StudyGoal.undesirable → riskDiff a b c d < 0 →
        im.absolute.label = "Absolute Risk Reduction (ARR)" ∧
        im.relative.label = "Relative Risk Reduction (RRR)") ∧
      (goal = StudyGoal.desirable → 0 < riskDiff a b c d →
        im.absolute.label = "Absolute Benefit Increase (ABI)" ∧
        im.relative.label = "Relative Benefit Increase (RBI)") ∧
      (goal = StudyGoal.desirable → riskDiff a b c d < 0 →
        im.absolute.label = "Absolute Benefit Reduction (ABR)" ∧
        im.relative.label = "Relative Benefit Reduction (RBR)")) := by
  obtain ⟨-, -, -, -, h5, -, -, -, -⟩ := computeMetrics_eq_base M a b c d design goal
  rw [baseResults_incidence M a b c d design goal hd he hc] at h5
  have h5' : (computeMetrics M a b c d design goal).impactMeasures
      = impactMeasuresOpt a b c d goal := h5
  constructor
  · rw [h5']
    simp only [impactMeasuresOpt]
    by_cases h : 0 < riskControl c d ∧ riskDiff a b c d ≠ 0
    · rw [if_pos h]
      exact iff_of_true (Option.some_ne_none _) h
    · rw [if_neg h]
      exact iff_of_false (fun hn => hn rfl) h
  · intro im him
    rw [h5'] at him
    simp only [impactMeasuresOpt] at him
    by_cases h : 0 < riskControl c d ∧ riskDiff a b c d ≠ 0
    · rw [if_pos h, Option.some_inj] at him
      subst him
      refine ⟨rfl, rfl, ?_, ?_, ?_, ?_⟩
      · intro hg hs
        subst hg
        rw [if_pos rfl, if_pos hs]
        exact ⟨rfl, rfl⟩
      · intro hg hs
        subst hg
        rw [if_pos rfl, if_neg (lt_asymm hs)]
        exact ⟨rfl, rfl⟩
      · intro hg hs
        subst hg
        rw [if_neg (by decide), if_pos hs]
        exact ⟨rfl, rfl⟩
      · intro hg hs
        subst hg
        rw [if_neg (by decide), if_neg (lt_asymm hs)]
        exact ⟨rfl, rfl⟩
    · rw [if_neg h] at him
      cases him

/-- Witness for C3 at the Scenario A table: goal undesirable, `rd > 0`. -/
theorem claim3_witness :
    StudyDesign.cohortProspective ≠ StudyDesign.caseControl ∧
    0 < exposedTotal 20 80 ∧ 0 < controlTotal 5 95 ∧
    ((computeMetrics M0 20 80 5 95 StudyDesign.cohortProspective
        StudyGoal.undesirable).impactMeasures ≠ none ↔
      0 < riskControl 5 95 ∧ riskDiff 20 80 5 95 ≠ 0) :=
  ⟨by decide, by norm_num [exposedTotal], by norm_num [controlTotal],
    (claim3_impact_measures M0 20 80 5 95 StudyDesign.cohortProspective
      StudyGoal.undesirable (by decide) (by norm_num [exposedTotal])
      (by norm_num [controlTotal])).1⟩

/-- C4: when the design is not case-control, both group totals are
positive and the raw risks are equal, the engine reports
`power = 0.05`, `type1Error = 0.05`, `type2Error = 0.95`, while the
impact measures and the NNT are null because `rd = 0`. -/
theorem claim4_equal_risks_degenerate_power (M : MathPrims) (a b c d : ℕ)
    (design : StudyDesign) (goal : StudyGoal) (hd : design ≠ StudyDesign.caseControl)
    (he : 0 < exposedTotal a b) (hc : 0 < controlTotal c d)
    (hr : riskExposed a b = riskControl c d) :
    (computeMetrics M a b c d design goal).power = some ⟨0.05⟩ ∧
    (computeMetrics M a b c d design goal).type1Error = some ⟨0.05⟩ ∧
    (computeMetrics M a b c d design goal).type2Error = some ⟨0.95⟩ ∧
    (computeMetrics M a b c d design goal).impactMeasures = none ∧
    (computeMetrics M a b c d design goal).nnt = none := by
  obtain ⟨-, -, -, -, h5, h6, h7, h8, h9⟩ := computeMetrics_eq_base M a b c d design goal
  rw [baseResults_incidence M a b c d design goal hd he hc] at h5 h6 h7 h8 h9
  have hrd : riskDiff a b c d = 0 := by rw [riskDiff, hr, sub_self]
  have hpf : powerFields M a b c d = (some ⟨0.05⟩, some ⟨0.05⟩, some ⟨0.95⟩) := by
    simp only [powerFields]
    rw [if_neg (not_not_intro hr)]
    have h95 : (1 : ℚ) - 0.05 = 0.95 := by norm_num
    rw [h95]
  refine ⟨?_, ?_, ?_, ?_, ?_⟩
  · rw [h7]
    show (powerFields M a b c d).1 = _
    rw [hpf]
  · rw [h8]
    show (powerFields M a b c d).2.1 = _
    rw [hpf]
  · rw [h9]
    show (powerFields M a b c d).2.2 = _
    rw [hpf]
  · rw [h5]
    show impactMeasuresOpt a b c d goal = none
    simp only [impactMeasuresOpt]
    rw [if_neg (fun hcon => hcon.2 hrd)]
  · rw [h6]
    show nntOpt M a b c d goal = none
    simp only [nntOpt]
    rw [if_neg (not_not_intro hrd)]

/-- Witness for C4 at the Scenario D table `a=5,b=45,c=5,d=45`. -/
theorem claim4_witness :
    StudyDesign.rct ≠ StudyDesign.caseControl ∧ 0 < exposedTotal 5 45 ∧
    0 < controlTotal 5 45 ∧ riskExposed 5 45 = riskControl 5 45 ∧
    ((computeMetrics M0 5 45 5 45 StudyDesign.rct StudyGoal.undesirable).power
        = some ⟨0.05⟩ ∧
     (computeMetrics M0 5 45 5 45 StudyDesign.rct StudyGoal.undesirable).type1Error
        = some ⟨0.05⟩ ∧
     (computeMetrics M0 5 45 5 45 StudyDesign.rct StudyGoal.undesirable).type2Error
        = some ⟨0.95⟩ ∧
     (computeMetrics M0 5 45 5 45 StudyDesign.rct StudyGoal.undesirable).impactMeasures
        = none ∧
     (computeMetrics M0 5 45 5 45 StudyDesign.rct StudyGoal.undesirable).nnt = none) :=
  ⟨by decide, by norm_num [exposedTotal], by norm_num [controlTotal], rfl,
    claim4_equal_risks_degenerate_power M0 5 45 5 45 StudyDesign.rct
      StudyGoal.undesirable (by decide) (by norm_num [exposedTotal])
      (by norm_num [controlTotal]) rfl⟩

/-- The erf approximation only depends on `z` through `|z|` and `z*z`, so
it is even. -/
theorem erfPoly_neg (M : MathPrims) (z : ℚ) : erfPoly M (-z) = erfPoly M z := by
  simp [erfPoly, abs_neg, neg_mul_neg]

/-- Exact value of the approximate CDF at 0 when `exp 0 = 1`: the A&S
coefficients sum to 0.999999999, leaving a residual of `5e-10`. -/
theorem normalCDF_zero (M : MathPrims) (h1 : M.exp 0 = 1) :
    normalCDF M 0 = 1000000001 / 2000000000 := by
  simp only [normalCDF, erfPoly]
  rw [zero_div]
  norm_num [h1]

/-- Away from `z = 0` the sign flip makes the reflection identity exact. -/
theorem normalCDF_reflection_aux (M : MathPrims) (x : ℚ)
    (hz : x / M.sqrt 2 ≠ 0) : normalCDF M (-x) + normalCDF M x = 1 := by
  simp only [normalCDF]
  rw [neg_div, erfPoly_neg]
  rcases lt_or_gt_of_ne hz with h | h
  · rw [if_pos (le_of_lt (neg_pos.mpr h)), if_neg (not_le.mpr h)]
    ring
  · rw [if_neg (not_le.mpr (neg_lt_zero.mpr h)), if_pos (le_of_lt h)]
    ring

/-- C9: for every rational input the Abramowitz-Stegun `normalCDF`
satisfies the reflection identity `cdf(-x) = 1 - cdf(x)` within the
1e-6 tolerance (exactly, except for the 1e-9 residual of the coefficient
sum at `z = 0`), and `cdf(0) = 0.5` within the same tolerance, provided
the exponential primitive satisfies `exp 0 = 1`. -/
theorem claim9_normalCDF_reflection (M : MathPrims) (h1 : M.exp 0 = 1) :
    (∀ x : ℚ, |normalCDF M (-x) + normalCDF M x - 1| ≤ 1 / 1000000) ∧
    |normalCDF M 0 - 0.5| ≤ 1 / 1000000 := by
  have h0 := normalCDF_zero M h1
  constructor
  · intro x
    by_cases hz : x / M.sqrt 2 = 0
    · have hx : normalCDF M x = normalCDF M 0 := by
        simp only [normalCDF]
        rw [hz, zero_div]
      have hxn : normalCDF M (-x) = normalCDF M 0 := by
        simp only [normalCDF]
        rw [neg_div, hz, neg_zero, zero_div]
      rw [hx, hxn, h0]
      rw [abs_le]
      constructor
      · norm_num
      · norm_num
    · rw [normalCDF_reflection_aux M x hz]
      norm_num
  · rw [h0]
    rw [abs_le]
    constructor
    · norm_num
    · norm_num

/-- Witness for C9: the concrete primitives `M0` satisfy `exp 0 = 1`, and
the reflection bound holds at `x = 1` and the centering bound at 0. -/
theorem claim9_witness :
    M0.exp 0 = 1 ∧ |normalCDF M0 (-1) + normalCDF M0 1 - 1| ≤ 1 / 1000000 ∧
    |normalCDF M0 0 - 0.5| ≤ 1 / 1000000 :=
  ⟨rfl, (claim9_normalCDF_reflection M0 rfl).1 1, (claim9_normalCDF_reflection M0 rfl).2⟩

/-- C8: `calculatePValueFromZ` computes `p = 2*(1 - cdf(|z|))`, returns
the literal `<0.0001` exactly when `p < 0.0001` and otherwise `p`
formatted to 4 decimals; the result depends on `z` only through `|z|`,
and at `z = 0` it is the string `1.0000`, provided `exp 0 = 1`. -/
theorem claim8_twoTailedPValue (M : MathPrims) (h1 : M.exp 0 = 1) :
    (∀ z : ℚ, calculatePValueFromZ M z =
        if 2 * (1 - normalCDF M |z|) < 0.0001 then "<0.0001"
        else toFixed4 (2 * (1 - normalCDF M |z|))) ∧
    (∀ z : ℚ, calculatePValueFromZ M (-z) = calculatePValueFromZ M z) ∧
    calculatePValueFromZ M 0 = "1.0000" := by
  refine ⟨fun z => rfl, fun z => by simp only [calculatePValueFromZ, abs_neg], ?_⟩
  have hp : 2 * (1 - normalCDF M |(0 : ℚ)|) = 999999999 / 1000000000 := by
    rw [abs_zero, normalCDF_zero M h1]
    norm_num
  simp only [calculatePValueFromZ]
  rw [hp, if_neg (by norm_num), toFixed4, if_neg (by norm_num)]
  simp only [toFixed4Nonneg]
  have hfloor : ⌊(999999999 / 1000000000 : ℚ) * 10000 + 0.5⌋ = (10000 : ℤ) := by
    rw [Int.floor_eq_iff]
    constructor
    · norm_num
    · norm_num
  rw [hfloor]
  decide

/-- Witness for C8: the concrete primitives `M0` satisfy `exp 0 = 1` and
the p-value string at `z = 0` is `1.0000`. -/
theorem claim8_witness :
    M0.exp 0 = 1 ∧ calculatePValueFromZ M0 0 = "1.0000" :=
  ⟨rfl, (claim8_twoTailedPValue M0 rfl).2.2⟩
